import Mathlib

/-!
Verification development for the AngstromSCD desktop command layer
(`apps/desktop/src-tauri/src/commands/{mod,api,native}.rs` and `main.rs`).

The Rust command layer is shallowly embedded as pure Lean functions:

* JSON documents (`serde_json::Value`) are the inductive `Json` below; JSON
  numerals are modelled as integers because this layer performs no numeric
  computation on them (the one `f32` field, `relevance_score`, is only
  carried through decoding, never computed with).
* The outbound HTTP transport (`reqwest`) is an external collaborator: each
  command takes a `transport : HttpRequest → Except String ResponseBody`
  argument; `.error e` is a transport failure whose stringified message is
  `e`, and `.ok body` is a transport success delivering the response body.
* `reqwest::Response::json::<T>()` first parses the body bytes as JSON and
  then runs `T`'s serde `Deserialize`; `ResponseBody` keeps both stages:
  `ResponseBody.malformed e` is a body whose byte-level JSON parse fails
  with message `e`, and `ResponseBody.json j` is a successfully parsed
  document on which the (modelled) serde deserializer for `T` runs.
* Each command also returns the list of HTTP requests it issues, so that
  "issues exactly one request with such-and-such shape" is a provable
  statement; the Rust code issues its single `send()` unconditionally.
* Rust `Result<A, String>` is `Except String A`; the `Err` variant of a
  command is `Except.error`.
-/

namespace AngstromSCD

/-- JSON documents, modelling `serde_json::Value`. Numerals are modelled as
integers, see the header comment. -/
inductive Json where
  | null : Json
  | bool (b : Bool) : Json
  | str (s : String) : Json
  | num (n : Int) : Json
  | arr (elems : List Json) : Json
  | obj (fields : List (String × Json)) : Json
deriving Repr

/-- Translation of `ApiResponse<T>` from `commands/mod.rs`:
`pub struct ApiResponse<T> { pub success: bool, pub data: Option<T>, pub error: Option<String> }`. -/
structure ApiResponse (T : Type) where
  success : Bool
  data : Option T
  error : Option String
deriving Repr, DecidableEq

/-- Translation of `ChatMessage` from `commands/api.rs`. -/
structure ChatMessage where
  content : String
  role : String
deriving Repr, DecidableEq

/-- Translation of `ChatResponse` from `commands/api.rs`. -/
structure ChatResponse where
  message : String
  citations : List String
deriving Repr, DecidableEq

/-- Translation of `LiteratureResult` from `commands/api.rs`. The Rust field
`relevance_score: f32` is modelled as `Int` (the score is only decoded and
carried, never computed with in this layer). -/
structure LiteratureResult where
  title : String
  abstract_text : String
  pmid : Option String
  doi : Option String
  relevance_score : Int
deriving Repr, DecidableEq

/-- Translation of `VoeAlert` from `commands/api.rs`. -/
structure VoeAlert where
  id : String
  patient_id : String
  risk_level : String
  message : String
  timestamp : String
deriving Repr, DecidableEq

/-- HTTP method of an outbound request (only GET and POST occur). -/
inductive Method where
  | GET : Method
  | POST : Method
deriving Repr, DecidableEq

/-- An outbound HTTP request as the command layer builds it: method, full
URL string, and the optional JSON body (`RequestBuilder::json(&body)`). -/
structure HttpRequest where
  method : Method
  url : String
  body : Option Json
deriving Repr

/-- Body of an HTTP response as seen by `Response::json::<T>()`: either a
byte stream that parses into a JSON document, or one whose JSON parse fails
with the given serde error message. -/
inductive ResponseBody where
  | json (document : Json) : ResponseBody
  | malformed (parseError : String) : ResponseBody
deriving Repr

/-- First field with the given name in a JSON object's field list.
The serde-derived deserializers below only ever receive each relevant key
once on the round-trip inputs the theorems use. -/
def lookupField : List (String × Json) → String → Option Json
  | [], _ => none
  | (k, v) :: rest, name => if k = name then some v else lookupField rest name

/-- Serde deserialization of a `String` from a JSON value. -/
def deserializeString : Json → Except String String
  | .str s => .ok s
  | _ => .error "invalid type: expected a string"

/-- Serde deserialization of a `bool` from a JSON value. -/
def deserializeBool : Json → Except String Bool
  | .bool b => .ok b
  | _ => .error "invalid type: expected a boolean"

/-- Serde deserialization of an `i` numeral from a JSON value (models the
numeric field `relevance_score`; see the header comment). -/
def deserializeNum : Json → Except String Int
  | .num n => .ok n
  | _ => .error "invalid type: expected a number"

/-- Elementwise deserialization of a JSON array's elements, in order,
failing on the first element that does not deserialize (serde's `Vec<T>`
visitor behaviour). -/
def mapDecode {T : Type} (deElem : Json → Except String T) :
    List Json → Except String (List T)
  | [] => .ok []
  | j :: rest =>
    match deElem j with
    | .ok x =>
      match mapDecode deElem rest with
      | .ok xs => .ok (x :: xs)
      | .error e => .error e
    | .error e => .error e

/-- Serde deserialization of a `Vec<T>` from a JSON value: the document must
be an array, and every element must deserialize; element order is kept. -/
def deserializeArray {T : Type} (deElem : Json → Except String T) :
    Json → Except String (List T)
  | .arr elems => mapDecode deElem elems
  | _ => .error "invalid type: expected a sequence"

/-- Serde deserialization of an `Option<String>` struct field: a missing or
`null` field is `none`; a string is `some`; anything else is an error. -/
def deserializeOptStringField (fields : List (String × Json)) (name : String) :
    Except String (Option String) :=
  match lookupField fields name with
  | none => .ok none
  | some .null => .ok none
  | some (.str s) => .ok (some s)
  | some _ => .error "invalid type: expected a string"

/-- Required struct field of a JSON object, with serde's missing-field
error message. -/
def requireField (fields : List (String × Json)) (name : String) : Except String Json :=
  match lookupField fields name with
  | some v => .ok v
  | none => .error ("missing field " ++ name)

/-- Model of the serde-derived `Deserialize` for `ChatResponse`
(`{ message: String, citations: Vec<String> }`). -/
def deserializeChatResponse (j : Json) : Except String ChatResponse :=
  match j with
  | .obj fields => do
    let mv ← requireField fields "message"
    let message ← deserializeString mv
    let cv ← requireField fields "citations"
    let citations ← deserializeArray deserializeString cv
    .ok { message := message, citations := citations }
  | _ => .error "invalid type: expected a map"

/-- Model of the serde-derived `Deserialize` for `LiteratureResult`. -/
def deserializeLiteratureResult (j : Json) : Except String LiteratureResult :=
  match j with
  | .obj fields => do
    let tv ← requireField fields "title"
    let title ← deserializeString tv
    let av ← requireField fields "abstract_text"
    let abstract_text ← deserializeString av
    let pmid ← deserializeOptStringField fields "pmid"
    let doi ← deserializeOptStringField fields "doi"
    let rv ← requireField fields "relevance_score"
    let relevance_score ← deserializeNum rv
    .ok { title := title, abstract_text := abstract_text, pmid := pmid,
          doi := doi, relevance_score := relevance_score }
  | _ => .error "invalid type: expected a map"

/-- Model of the serde-derived `Deserialize` for `VoeAlert`. -/
def deserializeVoeAlert (j : Json) : Except String VoeAlert :=
  match j with
  | .obj fields => do
    let iv ← requireField fields "id"
    let id ← deserializeString iv
    let pv ← requireField fields "patient_id"
    let patient_id ← deserializeString pv
    let rv ← requireField fields "risk_level"
    let risk_level ← deserializeString rv
    let mv ← requireField fields "message"
    let message ← deserializeString mv
    let tv ← requireField fields "timestamp"
    let timestamp ← deserializeString tv
    .ok { id := id, patient_id := patient_id, risk_level := risk_level,
          message := message, timestamp := timestamp }
  | _ => .error "invalid type: expected a map"

/-- Model of `Response::json::<serde_json::Value>()`: a parsed document is
returned as-is; only the byte-level parse can fail. -/
def decodeValue : ResponseBody → Except String Json
  | .json j => .ok j
  | .malformed e => .error e

/-- Model of `Response::json::<ChatResponse>()`. -/
def decodeChatResponse : ResponseBody → Except String ChatResponse
  | .json j => deserializeChatResponse j
  | .malformed e => .error e

/-- Model of `Response::json::<Vec<LiteratureResult>>()`. -/
def decodeLiteratureResults : ResponseBody → Except String (List LiteratureResult)
  | .json j => deserializeArray deserializeLiteratureResult j
  | .malformed e => .error e

/-- Model of `Response::json::<Vec<VoeAlert>>()`. -/
def decodeVoeAlerts : ResponseBody → Except String (List VoeAlert)
  | .json j => deserializeArray deserializeVoeAlert j
  | .malformed e => .error e

/-- Translation of `fetch_api_data` from `commands/api.rs`. The returned
list is the trace of HTTP requests the command issues (always exactly the
one `client.get(&url).send()`), paired with the command's return value. -/
def fetch_api_data (endpoint : String)
    (transport : HttpRequest → Except String ResponseBody) :
    List HttpRequest × Except String (ApiResponse Json) :=
  let url := "http://localhost:3001/api/" ++ endpoint
  let req : HttpRequest := { method := .GET, url := url, body := none }
  (  [req],
    match transport req with
    | .ok response =>
      match decodeValue response with
      | .ok data => .ok { success := true, data := some data, error := none }
      | .error e => .ok { success := false, data := none, error := some e }
    | .error e => .ok { success := false, data := none, error := some e })

/-- Translation of `send_chat_message` from `commands/api.rs`: builds the
`serde_json::json!` body with the four fields message/role/mode/tone and
POSTs it to `/api/chat`. -/
def send_chat_message (message : ChatMessage) (mode : String) (tone : String)
    (transport : HttpRequest → Except String ResponseBody) :
    List HttpRequest × Except String (ApiResponse ChatResponse) :=
  let url := "http://localhost:3001/api/chat"
  let body := Json.obj [("message", .str message.content), ("role", .str message.role),
                        ("mode", .str mode), ("tone", .str tone)]
  let req : HttpRequest := { method := .POST, url := url, body := some body }
  (  [req],
    match transport req with
    | .ok response =>
      match decodeChatResponse response with
      | .ok data => .ok { success := true, data := some data, error := none }
      | .error e => .ok { success := false, data := none, error := some e }
    | .error e => .ok { success := false, data := none, error := some e })

/-- Translation of `search_literature` from `commands/api.rs`. The Rust
`limit: u32` is modelled as `Nat`; `format!` renders a `u32` in decimal,
which agrees with `Nat` decimal rendering on the whole `u32` range. -/
def search_literature (query : String) (limit : Nat)
    (transport : HttpRequest → Except String ResponseBody) :
    List HttpRequest × Except String (ApiResponse (List LiteratureResult)) :=
  let url := "http://localhost:3001/api/literature/search?q=" ++ query ++
    "&limit=" ++ toString limit
  let req : HttpRequest := { method := .GET, url := url, body := none }
  (  [req],
    match transport req with
    | .ok response =>
      match decodeLiteratureResults response with
      | .ok data => .ok { success := true, data := some data, error := none }
      | .error e => .ok { success := false, data := none, error := some e }
    | .error e => .ok { success := false, data := none, error := some e })

/-- Translation of `get_voe_alerts` from `commands/api.rs`. -/
def get_voe_alerts
    (transport : HttpRequest → Except String ResponseBody) :
    List HttpRequest × Except String (ApiResponse (List VoeAlert)) :=
  let url := "http://localhost:3001/api/voe/alerts"
  let req : HttpRequest := { method := .GET, url := url, body := none }
  (  [req],
    match transport req with
    | .ok response =>
      match decodeVoeAlerts response with
      | .ok data => .ok { success := true, data := some data, error := none }
      | .error e => .ok { success := false, data := none, error := some e }
    | .error e => .ok { success := false, data := none, error := some e })

/-- Translation of `greet` from `commands/mod.rs`:
`format!("Hello, {}! Welcome to AngstromSCD Medical Research Assistant.", name)`. -/
def greet (name : String) : String :=
  "Hello, " ++ name ++ "! Welcome to AngstromSCD Medical Research Assistant."

/-- Shape of a registered command's return type, read off the signatures in
`commands/mod.rs` and `commands/api.rs`: `greet` returns a bare `String`,
the four proxy commands return `Result<ApiResponse<..>, String>`. -/
inductive ReturnShape where
  | bareString : ReturnShape
  | resultEnvelope : ReturnShape
deriving Repr, DecidableEq

/-- Translation of the `tauri::generate_handler![...]` list in `main.rs`
(the commands registered with the dispatcher, in registration order), each
paired with its return shape. The native window commands of
`commands/native.rs` are not in this list. -/
def registered_commands : List (String × ReturnShape) :=
  [("greet", .bareString),
   ("fetch_api_data", .resultEnvelope),
   ("search_literature", .resultEnvelope),
   ("get_voe_alerts", .resultEnvelope),
   ("send_chat_message", .resultEnvelope)]

/-- Model of the `tauri::Window` handle consumed by `commands/native.rs`:
a record of fallible native operations. The error channel carries the
already-stringified OS error, so the `map_err(|e| e.to_string())` calls in
the source are the identity in this model. -/
structure Window where
  is_fullscreen : Except String Bool
  set_fullscreen : Bool → Except String Unit
  minimize : Except String Unit
  is_maximized : Except String Bool
  maximize : Except String Unit
  unmaximize : Except String Unit
  close : Except String Unit

/-- Translation of `toggle_fullscreen` from `commands/native.rs`. -/
def toggle_fullscreen (window : Window) : Except String Unit :=
  match window.is_fullscreen with
  | .ok is_fullscreen => window.set_fullscreen (!is_fullscreen)
  | .error e => .error e

/-- Translation of `minimize_window` from `commands/native.rs`. -/
def minimize_window (window : Window) : Except String Unit :=
  window.minimize

/-- Translation of `maximize_window` from `commands/native.rs`. -/
def maximize_window (window : Window) : Except String Unit :=
  match window.is_maximized with
  | .ok is_maximized =>
    if is_maximized then window.unmaximize else window.maximize
  | .error e => .error e

/-- Translation of `close_window` from `commands/native.rs`. -/
def close_window (window : Window) : Except String Unit :=
  window.close

/-- Model of the serde-derived `Serialize` for `ApiResponse<T>`, given a
serializer for the payload: `Option` fields serialize `None` as JSON `null`
and `Some(x)` as the serialization of `x`; fields appear in declaration
order. -/
def serializeApiResponse {T : Type} (serT : T → Json) (r : ApiResponse T) : Json :=
  .obj [("success", .bool r.success),
        ("data", match r.data with | none => .null | some d => serT d),
        ("error", match r.error with | none => .null | some s => .str s)]

/-- True exactly of the JSON `null` document. -/
def Json.isNull : Json → Bool
  | .null => true
  | _ => false

/-- Serde deserialization of an `Option<T>` struct field, given the payload
deserializer: a missing or `null` field is `None`, any other value is
deserialized as `T` and wrapped in `Some`. -/
def deserializeOptField {T : Type} (deT : Json → Except String T)
    (fields : List (String × Json)) (name : String) : Except String (Option T) :=
  match lookupField fields name with
  | none => .ok none
  | some v => if v.isNull then .ok none else (deT v).map some

/-- Model of the serde-derived `Deserialize` for `ApiResponse<T>`, given a
deserializer for the payload. -/
def deserializeApiResponse {T : Type} (deT : Json → Except String T)
    (j : Json) : Except String (ApiResponse T) :=
  match j with
  | .obj fields =>
    match requireField fields "success" with
    | .error e => .error e
    | .ok sv =>
      match deserializeBool sv with
      | .error e => .error e
      | .ok success =>
        match deserializeOptField deT fields "data" with
        | .error e => .error e
        | .ok data =>
          match deserializeOptField deserializeString fields "error" with
          | .error e => .error e
          | .ok error => .ok { success := success, data := data, error := error }
  | _ => .error "invalid type: expected a map"

/-- Envelope invariant of the spec: when `success` is `true` the payload is
present and the error absent, and when `success` is `false` the error is
present and the payload absent (so exactly one of `data`/`error` is set and
it matches `success`). -/
def envelopeInvariant {T : Type} (r : ApiResponse T) : Prop :=
  (r.success = true → (∃ d, r.data = some d) ∧ r.error = none) ∧
  (r.success = false → (∃ e, r.error = some e) ∧ r.data = none)

/-- Envelope invariant lifted to a command's outer `Result`: holds of every
envelope the command actually returns. -/
def resultEnvelopeInvariant {T : Type} : Except String (ApiResponse T) → Prop
  | .ok r => envelopeInvariant r
  | .error _ => True

/-- True exactly when a command's outer `Result` is the `Ok` variant, i.e.
the command returned an envelope rather than raising a fault. -/
def returnsEnvelope {T : Type} : Except String (ApiResponse T) → Bool
  | .ok _ => true
  | .error _ => false

/-- Window whose every native operation fails with the OS error "os error"
(already stringified, as `map_err(|e| e.to_string())` leaves it). -/
def failWindow : Window where
  is_fullscreen := .error "os error"
  set_fullscreen := fun _ => .error "os error"
  minimize := .error "os error"
  is_maximized := .error "os error"
  maximize := .error "os error"
  unmaximize := .error "os error"
  close := .error "os error"

/-- Window whose every native operation fails with the OS error
"permission denied". -/
def deniedWindow : Window where
  is_fullscreen := .error "permission denied"
  set_fullscreen := fun _ => .error "permission denied"
  minimize := .error "permission denied"
  is_maximized := .error "permission denied"
  maximize := .error "permission denied"
  unmaximize := .error "permission denied"
  close := .error "permission denied"

/-- Backend JSON document for one literature search hit with the given
relevance score (optional `pmid`/`doi` fields absent via `null`). -/
def literatureItemJson (score : Int) : Json :=
  .obj [("title", .str "CRISPR gene therapy in sickle cell disease"),
        ("abstract_text", .str "A study."),
        ("pmid", .null), ("doi", .null),
        ("relevance_score", .num score)]

/-- Decoded form of `literatureItemJson score`. -/
def literatureItem (score : Int) : LiteratureResult :=
  { title := "CRISPR gene therapy in sickle cell disease",
    abstract_text := "A study.",
    pmid := none, doi := none, relevance_score := score }

/-- A backend response body carrying five literature search hits in order
of descending relevance score. -/
def fiveLiteratureBody : ResponseBody :=
  .json (.arr [literatureItemJson 5, literatureItemJson 4, literatureItemJson 3,
               literatureItemJson 2, literatureItemJson 1])

/-- Helper: an envelope `ok(d)` satisfies the envelope invariant. -/
lemma resultEnvelopeInvariant_ok_env {T : Type} (d : T) :
    resultEnvelopeInvariant (Except.ok { success := true, data := some d, error := none }) := by
  simp [resultEnvelopeInvariant, envelopeInvariant]

/-- Helper: an envelope `fail(e)` satisfies the envelope invariant. -/
lemma resultEnvelopeInvariant_fail_env {T : Type} (e : String) :
    resultEnvelopeInvariant
      (Except.ok { success := false, data := (none : Option T), error := some e }) := by
  simp [resultEnvelopeInvariant, envelopeInvariant]

/-- Helper: elementwise decoding of a JSON array preserves its length. -/
lemma mapDecode_ok_length {T : Type} (deElem : Json → Except String T) :
    ∀ (elems : List Json) (xs : List T),
      mapDecode deElem elems = .ok xs → xs.length = elems.length := by
  intro elems
  induction elems with
  | nil =>
    intro xs h
    simp only [mapDecode] at h
    cases h
    rfl
  | cons j rest ih =>
    intro xs h
    simp only [mapDecode] at h
    cases hd : deElem j with
    | error e => rw [hd] at h; simp at h
    | ok x =>
      rw [hd] at h
      cases hr : mapDecode deElem rest with
      | error e => rw [hr] at h; simp at h
      | ok ys =>
        rw [hr] at h
        cases h
        simp [ih ys hr]

/-- Helper: a non-null JSON document is not `isNull`. -/
lemma Json.isNull_eq_false {j : Json} (h : j ≠ Json.null) : Json.isNull j = false := by
  cases j <;> simp_all [Json.isNull]

/-- Claim C1: for every proxy command invocation (fetch_api_data,
send_chat_message, search_literature, get_voe_alerts) and every
transport/decode outcome, the returned envelope satisfies the invariant:
`success = true` implies data present and error absent, and
`success = false` implies error present and data absent, so exactly one of
`data`/`error` is set and it matches `success`. -/
theorem proxy_envelope_invariant (endpoint : String) (message : ChatMessage)
    (mode tone query : String) (limit : Nat)
    (transport : HttpRequest → Except String ResponseBody) :
    resultEnvelopeInvariant (fetch_api_data endpoint transport).2 ∧
    resultEnvelopeInvariant (send_chat_message message mode tone transport).2 ∧
    resultEnvelopeInvariant (search_literature query limit transport).2 ∧
    resultEnvelopeInvariant (get_voe_alerts transport).2 := by
  refine ⟨?_, ?_, ?_, ?_⟩ <;>
    simp only [fetch_api_data, send_chat_message, search_literature, get_voe_alerts] <;>
    split <;> try split
  all_goals
    first
      | exact resultEnvelopeInvariant_ok_env _
      | exact resultEnvelopeInvariant_fail_env _

/-- Claim C5: no proxy command ever raises or returns a fault past its
boundary: for every input and every transport/decode outcome, each of the
four proxy commands returns an envelope — the outer `Result` is always the
`Ok` variant and the `Err` branch is never produced. -/
theorem proxy_never_faults (endpoint : String) (message : ChatMessage)
    (mode tone query : String) (limit : Nat)
    (transport : HttpRequest → Except String ResponseBody) :
    returnsEnvelope (fetch_api_data endpoint transport).2 = true ∧
    returnsEnvelope (send_chat_message message mode tone transport).2 = true ∧
    returnsEnvelope (search_literature query limit transport).2 = true ∧
    returnsEnvelope (get_voe_alerts transport).2 = true := by
  refine ⟨?_, ?_, ?_, ?_⟩ <;>
    simp only [fetch_api_data, send_chat_message, search_literature, get_voe_alerts] <;>
    split <;> try split
  all_goals rfl

/-- Claim C2: for every proxy command, if the outbound HTTP transport fails
(connection refused, DNS failure, network error), the command returns an
envelope with `success = false`, `error` set to the (non-empty) stringified
transport error message, and `data` absent. -/
theorem transport_failure_envelope (endpoint : String) (message : ChatMessage)
    (mode tone query : String) (limit : Nat)
    (transport : HttpRequest → Except String ResponseBody) (e : String)
    (ht : ∀ req, transport req = .error e) (he : e ≠ "") :
    (fetch_api_data endpoint transport).2 =
      .ok { success := false, data := none, error := some e } ∧
    (send_chat_message message mode tone transport).2 =
      .ok { success := false, data := none, error := some e } ∧
    (search_literature query limit transport).2 =
      .ok { success := false, data := none, error := some e } ∧
    (get_voe_alerts transport).2 =
      .ok { success := false, data := none, error := some e } ∧
    e ≠ "" := by
  refine ⟨?_, ?_, ?_, ?_, he⟩ <;>
    simp [fetch_api_data, send_chat_message, search_literature, get_voe_alerts, ht]

/-- Witness for claim C2 at a concrete input: a connection-refused
transport failure on `fetch_api_data "health"` yields the failure
envelope. -/
theorem transport_failure_envelope_witness :
    (fetch_api_data "health"
        (fun _ => .error "error sending request: connection refused")).2 =
      .ok { success := false, data := none, error := some "error sending request: connection refused" } :=
  (transport_failure_envelope "health" { content := "hi", role := "user" }
    "research" "formal" "sickle cell" 10
    (fun _ => .error "error sending request: connection refused")
    "error sending request: connection refused"
    (fun _ => rfl) (by decide)).1

/-- Claim C3: for every proxy command, if the HTTP transport succeeds but
the response body fails to decode into that command's expected payload
shape — whether the body is byte-level malformed or is valid JSON of the
wrong shape — the command returns an envelope with `success = false`,
`data` absent, and `error` set to the decode error message: the same
failure shape as a transport failure. Each conjunct conditions only on its
own command's decoder failing. In particular a chat response missing
`citations` fails to decode and yields that failure envelope. -/
theorem decode_failure_envelope (endpoint : String) (message : ChatMessage)
    (mode tone query : String) (limit : Nat)
    (transport : HttpRequest → Except String ResponseBody) (body : ResponseBody)
    (ht : ∀ req, transport req = .ok body) :
    (∀ e, decodeValue body = .error e →
      (fetch_api_data endpoint transport).2 =
        .ok { success := false, data := none, error := some e }) ∧
    (∀ e, decodeChatResponse body = .error e →
      (send_chat_message message mode tone transport).2 =
        .ok { success := false, data := none, error := some e }) ∧
    (∀ e, decodeLiteratureResults body = .error e →
      (search_literature query limit transport).2 =
        .ok { success := false, data := none, error := some e }) ∧
    (∀ e, decodeVoeAlerts body = .error e →
      (get_voe_alerts transport).2 =
        .ok { success := false, data := none, error := some e }) ∧
    deserializeChatResponse (.obj [("message", .str "hi")]) =
      .error "missing field citations" ∧
    (send_chat_message message mode tone
        (fun _ => .ok (.json (.obj [("message", .str "hi")])))).2 =
      .ok { success := false, data := none, error := some "missing field citations" } := by
  refine ⟨?_, ?_, ?_, ?_, rfl, rfl⟩
  · intro e h
    simp [fetch_api_data, ht, h]
  · intro e h
    simp [send_chat_message, ht, h]
  · intro e h
    simp [search_literature, ht, h]
  · intro e h
    simp [get_voe_alerts, ht, h]

/-- Witness for claim C3 at a concrete input: a transport success whose
body is valid JSON of the wrong shape (a chat response missing
`citations`) makes `send_chat_message` return the decode-failure envelope
even though the HTTP layer succeeded. -/
theorem decode_failure_envelope_witness :
    (send_chat_message { content := "hi", role := "user" } "research" "formal"
        (fun _ => .ok (.json (.obj [("message", .str "hi")])))).2 =
      .ok { success := false, data := none, error := some "missing field citations" } :=
  (decode_failure_envelope "health" { content := "hi", role := "user" }
    "research" "formal" "sickle cell" 10
    (fun _ => .ok (.json (.obj [("message", .str "hi")])))
    (.json (.obj [("message", .str "hi")]))
    (fun _ => rfl)).2.1 "missing field citations" rfl

/-- Claim C4: for every proxy command, if the transport succeeds and the
body decodes into the expected shape, the command returns an envelope with
`success = true`, `data` equal to the decoded body, and `error` absent; the
decoded sequence of a sequence-valued command is exactly the
elementwise-decoded backend array, so order and length are preserved: a
five-item backend response yields `data` of length five (in backend
order), and an empty backend result set for the alert fetch yields
`success = true` with an empty sequence, not an error. -/
theorem decode_success_envelope (endpoint : String) (message : ChatMessage)
    (mode tone query : String) (limit : Nat)
    (transport : HttpRequest → Except String ResponseBody) (body : ResponseBody)
    (ht : ∀ req, transport req = .ok body) :
    (∀ jV, decodeValue body = .ok jV →
      (fetch_api_data endpoint transport).2 =
        .ok { success := true, data := some jV, error := none }) ∧
    (∀ cR, decodeChatResponse body = .ok cR →
      (send_chat_message message mode tone transport).2 =
        .ok { success := true, data := some cR, error := none }) ∧
    (∀ xs, decodeLiteratureResults body = .ok xs →
      (search_literature query limit transport).2 =
        .ok { success := true, data := some xs, error := none }) ∧
    (∀ xs, decodeVoeAlerts body = .ok xs →
      (get_voe_alerts transport).2 =
        .ok { success := true, data := some xs, error := none }) ∧
    (∀ (elems : List Json) (xs : List LiteratureResult),
      deserializeArray deserializeLiteratureResult (.arr elems) = .ok xs →
        xs.length = elems.length) ∧
    (search_literature "sickle cell" 5 (fun _ => .ok fiveLiteratureBody)).2 =
      .ok { success := true,
            data := some [literatureItem 5, literatureItem 4, literatureItem 3,
                          literatureItem 2, literatureItem 1],
            error := none } ∧
    [literatureItem 5, literatureItem 4, literatureItem 3,
     literatureItem 2, literatureItem 1].length = 5 ∧
    (get_voe_alerts (fun _ => .ok (.json (.arr [])))).2 =
      .ok { success := true, data := some [], error := none } := by
  refine ⟨?_, ?_, ?_, ?_, ?_, rfl, rfl, rfl⟩
  · intro jV h
    simp [fetch_api_data, ht, h]
  · intro cR h
    simp [send_chat_message, ht, h]
  · intro xs h
    simp [search_literature, ht, h]
  · intro xs h
    simp [get_voe_alerts, ht, h]
  · exact fun elems xs h => mapDecode_ok_length deserializeLiteratureResult elems xs h

/-- Witness for claim C4 at a concrete input: a transport success whose
body decodes as a five-item literature array yields the success envelope
carrying those five results. -/
theorem decode_success_envelope_witness :
    (search_literature "sickle cell" 5 (fun _ => .ok fiveLiteratureBody)).2 =
      .ok { success := true,
            data := some [literatureItem 5, literatureItem 4, literatureItem 3,
                          literatureItem 2, literatureItem 1],
            error := none } :=
  (decode_success_envelope "health" { content := "hi", role := "user" }
    "research" "formal" "sickle cell" 5
    (fun _ => .ok fiveLiteratureBody) fiveLiteratureBody
    (fun _ => rfl)).2.2.1
    [literatureItem 5, literatureItem 4, literatureItem 3,
     literatureItem 2, literatureItem 1] rfl

/-- Claim C6: `search_literature` with query "sickle cell" and limit 10
issues exactly one GET whose URL is the literal string
"http://localhost:3001/api/literature/search?q=sickle cell&limit=10", and
for every query string and limit value the query and limit are
interpolated into the URL verbatim, with no URL-encoding or escaping (the
Rust `u32` limit is modelled as `Nat`; decimal rendering agrees on the
whole `u32` range). -/
theorem search_literature_url (query : String) (limit : Nat)
    (transport : HttpRequest → Except String ResponseBody) :
    (search_literature "sickle cell" 10 transport).1 =
      [{ method := .GET,
         url := "http://localhost:3001/api/literature/search?q=sickle cell&limit=10",
         body := none }] ∧
    (search_literature query limit transport).1 =
      [{ method := .GET,
         url := "http://localhost:3001/api/literature/search?q=" ++ query ++
           "&limit=" ++ toString limit,
         body := none }] := by
  exact ⟨rfl, rfl⟩

/-- Claim C7: `send_chat_message` issues exactly one POST to `/api/chat`
whose JSON body has precisely the four fields message/role/mode/tone,
where `message` is the chat message's `content`, `role` is its `role`, and
`mode`/`tone` are the caller-supplied strings, for every input. -/
theorem send_chat_message_request_shape (message : ChatMessage)
    (mode tone : String)
    (transport : HttpRequest → Except String ResponseBody) :
    (send_chat_message message mode tone transport).1 =
      [{ method := .POST,
         url := "http://localhost:3001/api/chat",
         body := some (.obj [("message", .str message.content),
                             ("role", .str message.role),
                             ("mode", .str mode),
                             ("tone", .str tone)]) }] := by
  exact rfl

/-- Counterexample to claim C8: the native window commands of
`commands/native.rs` return `Result<(), String>`, not
`Result<ApiResponse<..>, String>` — when a native call fails, each command
produces the `Err` variant carrying the stringified OS error (a fault
raised to the dispatcher), and no envelope with `success = false` exists
anywhere in its return value. On the concrete window `failWindow`, whose
every native call fails with "os error", all four commands return
`Except.error "os error"` rather than an `ok` of anything, so a failed
native window operation does not surface as an envelope. -/
theorem native_failure_not_enveloped :
    toggle_fullscreen failWindow = .error "os error" ∧
    minimize_window failWindow = .error "os error" ∧
    maximize_window failWindow = .error "os error" ∧
    close_window failWindow = .error "os error" ∧
    toggle_fullscreen failWindow ≠ .ok () := by
  refine ⟨rfl, rfl, rfl, rfl, ?_⟩
  intro h
  cases h

/-- Claim C8 as amended: TransportError and DecodeError are flattened to a
string message inside the envelope's `error` field (claims C2 and C3), and
a failed native window operation likewise flattens its OS error to a
string — but that string is returned as the `Err` branch of the command's
outer `Result`, a raised fault, not inside an envelope: for every window
and error message, a failing native call makes the corresponding command
return exactly `Except.error` of the stringified OS error. -/
theorem native_errors_are_stringified_faults (w : Window) (e : String) :
    (w.is_fullscreen = .error e → toggle_fullscreen w = .error e) ∧
    (w.minimize = .error e → minimize_window w = .error e) ∧
    (w.is_maximized = .error e → maximize_window w = .error e) ∧
    (w.close = .error e → close_window w = .error e) := by
  refine ⟨fun h => ?_, fun h => ?_, fun h => ?_, fun h => ?_⟩ <;>
    simp [toggle_fullscreen, minimize_window, maximize_window, close_window, h]

/-- Witness for the amended claim C8 at a concrete input: on a window
whose native calls fail with "permission denied", each command returns
that message as a raised `Err` fault. -/
theorem native_errors_are_stringified_faults_witness :
    toggle_fullscreen deniedWindow = .error "permission denied" ∧
    minimize_window deniedWindow = .error "permission denied" ∧
    maximize_window deniedWindow = .error "permission denied" ∧
    close_window deniedWindow = .error "permission denied" := by
  have h := native_errors_are_stringified_faults deniedWindow "permission denied"
  exact ⟨h.1 rfl, h.2.1 rfl, h.2.2.1 rfl, h.2.2.2 rfl⟩

/-- Counterexample to claim C9: the round trip is not lossless for every
payload type and every envelope value. For the payload type
`serde_json::Value` (whose serializer is the identity and whose
deserializer accepts any document), the envelope
`{success: true, data: Some(Value::Null), error: None}` serializes its
`data` field to JSON `null`, which deserializes back to `None`: the round
trip returns `{success: true, data: None, error: None}`, a different
envelope. -/
theorem apiResponse_roundtrip_counterexample :
    deserializeApiResponse Except.ok
        (serializeApiResponse id
          ({ success := true, data := some Json.null, error := none } : ApiResponse Json)) =
      .ok { success := true, data := none, error := none } ∧
    ({ success := true, data := none, error := none } : ApiResponse Json) ≠
      { success := true, data := some Json.null, error := none } := by
  refine ⟨rfl, ?_⟩
  intro h
  cases h

/-- Claim C9 as amended: serializing an `ApiResponse<T>` and deserializing
it back yields the original envelope whenever the payload (de)serializer
pair round-trips and the payload present in `data` (if any) does not
itself serialize to JSON `null` — in particular for every envelope of the
concrete payload types whose serialization is never `null`. The only loss
the derived serde instances admit is a `data` payload serializing to
`null` collapsing to an absent `data`. -/
theorem apiResponse_roundtrip_nonnull {T : Type} (serT : T → Json)
    (deT : Json → Except String T)
    (hrt : ∀ t, deT (serT t) = .ok t)
    (r : ApiResponse T)
    (hnn : ∀ d, r.data = some d → serT d ≠ Json.null) :
    deserializeApiResponse deT (serializeApiResponse serT r) = .ok r := by
  obtain ⟨success, data, error⟩ := r
  cases data with
  | none =>
    cases error with
    | none =>
      simp [serializeApiResponse, deserializeApiResponse, requireField, lookupField,
            deserializeBool, deserializeOptField, deserializeString, Json.isNull,
            Except.map]
    | some s =>
      simp [serializeApiResponse, deserializeApiResponse, requireField, lookupField,
            deserializeBool, deserializeOptField, deserializeString, Json.isNull,
            Except.map]
  | some d =>
    have hd : Json.isNull (serT d) = false :=
      Json.isNull_eq_false (hnn d rfl)
    cases error with
    | none =>
      simp [serializeApiResponse, deserializeApiResponse, requireField, lookupField,
            deserializeBool, deserializeOptField, deserializeString, Except.map,
            hd, hrt d]
      simp [Json.isNull]
    | some s =>
      simp [serializeApiResponse, deserializeApiResponse, requireField, lookupField,
            deserializeBool, deserializeOptField, deserializeString, Except.map,
            hd, hrt d]
      simp [Json.isNull]

/-- Witness for the amended claim C9 at a concrete input: a failure
envelope with a boolean payload type round-trips unchanged. -/
theorem apiResponse_roundtrip_nonnull_witness :
    deserializeApiResponse deserializeBool
        (serializeApiResponse Json.bool
          ({ success := false, data := some true, error := some "boom" } : ApiResponse Bool)) =
      .ok { success := false, data := some true, error := some "boom" } :=
  apiResponse_roundtrip_nonnull Json.bool deserializeBool
    (fun t => rfl)
    { success := false, data := some true, error := some "boom" }
    (by intro d hd h; cases hd; cases h)

/-- Claim C10: for every input string, `greet` deterministically returns
exactly "Hello, " ++ name ++ "! Welcome to AngstromSCD Medical Research
Assistant.", and among the commands registered with the dispatcher in
`main.rs` it is the only one returning a bare string rather than a
`Result`-wrapped `ApiResponse` envelope. -/
theorem greet_format_and_unique_bare_string :
    (∀ name, greet name =
      "Hello, " ++ name ++ "! Welcome to AngstromSCD Medical Research Assistant.") ∧
    (∀ p ∈ registered_commands,
      p.2 = ReturnShape.bareString ↔ p.1 = "greet") := by
  constructor
  · intro name
    rfl
  · decide

/-- Witness for claim C10 at a concrete input: greeting "Ada" yields the
exact literal, and the registered entry for "greet" is the bare-string
one. -/
theorem greet_format_and_unique_bare_string_witness :
    greet "Ada" = "Hello, Ada! Welcome to AngstromSCD Medical Research Assistant." ∧
    (ReturnShape.bareString = ReturnShape.bareString ↔ "greet" = "greet") := by
  have h := greet_format_and_unique_bare_string
  exact ⟨(h.1 "Ada").trans (by decide),
         h.2 ("greet", ReturnShape.bareString) (by decide)⟩

end AngstromSCD
